import Mathlib

/-!
Shallow embedding of the goscribe/proxy-ai HTTP proxy (src/unnamed/part_000 and
src/server.js, which is a strict subset of part_000 for the routes it shares).

Conventions of the embedding:
* Every `Date.now()` read inside one request is modelled by a single parameter
  `now : Nat` (epoch milliseconds); ISO-rendered timestamps are represented by
  the epoch-millisecond value of the instant they render.
* Vendor SDK calls (Cohere generate, GCS save / exists / getSignedUrl / delete /
  getMetadata / getFiles) are modelled as oracle parameters giving their result,
  and every handler additionally returns the list of storage/upstream calls it
  performed, in order, so that "no network call was made" is the statement that
  this trace is empty.
* JSON response bodies are association lists of field name and value, listed in
  the order the source writes them.
-/

namespace ProxyAI

/-- JS truthiness of an optional string value (env var or JSON string field):
`undefined` and the empty string are falsy, every other string is truthy. -/
def jsTruthy : Option String → Bool
  | none => false
  | some s => !(s == "")

/-- Lowercasing as used by `file.originalname.toLowerCase()` (ASCII case map). -/
def lowerStr (s : String) : String := String.mk (s.data.map Char.toLower)

/-- Does the list start with the given pattern? Helper for substring search. -/
def startsWithL : List Char → List Char → Bool
  | _, [] => true
  | [], _ :: _ => false
  | a :: as, b :: bs => a == b && startsWithL as bs

/-- Substring test: JS `/pat/.test(s)` for a literal pattern is a substring
search of `pat` in `s`. -/
def hasSub (pat : List Char) : List Char → Bool
  | [] => startsWithL [] pat
  | s@(_ :: rest) => startsWithL s pat || hasSub pat rest

/-- Alternatives of the unanchored regex
`/jpeg|jpg|png|gif|pdf|txt|doc|docx|xls|xlsx|csv|zip|rar/` (part_000 line 31). -/
def allowedTokens : List String :=
  ["jpeg", "jpg", "png", "gif", "pdf", "txt", "doc", "docx", "xls", "xlsx",
   "csv", "zip", "rar"]

/-- JS `allowedTypes.test(s)`: the unanchored regex matches iff some allowed
token occurs in `s` as a substring. -/
def regexTestAllowed (s : String) : Bool :=
  allowedTokens.any (fun t => hasSub t.data s.data)

/-- The multer `fileFilter` (part_000 lines 29-40): accept iff the lowercased
original name matches the regex AND the (raw) mimetype matches the regex. -/
def fileFilterAccept (originalname mimetype : String) : Bool :=
  regexTestAllowed (lowerStr originalname) && regexTestAllowed mimetype

/-- JS `String.prototype.split('.')` on a character list: splits at every dot,
keeping empty segments, and always returns at least one segment. -/
def splitOnDot : List Char → List (List Char)
  | [] => [[]]
  | c :: rest =>
    if c = '.' then [] :: splitOnDot rest
    else
      match splitOnDot rest with
      | [] => [[c]]
      | h :: t => (c :: h) :: t

/-- JS `originalName.split('.').pop()` (part_000 line 184): the segment after
the last dot, or the whole name when it has no dot. -/
def jsExt (name : String) : String :=
  String.mk ((splitOnDot name.data).getLastD [])

/-- Generated object name (part_000 line 185):
the template `timestamp + "-" + token + "." + extension` where `timestamp` is
the decimal rendering of `Date.now()` and `token` models
`Math.random().toString(36).substring(2)`. -/
def genFileName (now : Nat) (token originalName : String) : String :=
  String.mk (Nat.toDigits 10 now ++ '-' :: token.data ++ '.' :: (jsExt originalName).data)

/-- Configuration snapshot: the two env values the handlers branch on. -/
structure Env where
  cohereApiKey : Option String
  bucketName : Option String

/-- A multipart upload parsed by multer: `req.file`. -/
structure UploadFile where
  originalname : String
  mimetype : String
  size : Nat

/-- JSON values, as much structure as the responses need. -/
inductive JVal where
  | str : String → JVal
  | num : Nat → JVal
  | bool : Bool → JVal
  | arr : List JVal → JVal
  | obj : List (String × JVal) → JVal

/-- An HTTP response: status code plus JSON body as an ordered field list. -/
structure Response where
  status : Nat
  body : List (String × JVal)

/-- Upstream calls a handler can make, recorded in order. -/
inductive Call where
  | cohereGenerate : Call
  | gcsSave : String → Call
  | gcsSignUrl : String → Nat → Call
  | gcsExists : String → Call
  | gcsDelete : String → Call
  | gcsGetMetadata : String → Call
  | gcsGetFiles : Call
deriving DecidableEq, Repr

/-- Does the body carry a field of this name? -/
def hasField (body : List (String × JVal)) (k : String) : Bool :=
  body.any (fun p => p.1 == k)

/-- String value of a body field, if present and a string. -/
def getStr (body : List (String × JVal)) (k : String) : Option String :=
  match body.find? (fun p => p.1 == k) with
  | some (_, JVal.str s) => some s
  | _ => none

/-- Numeric value of a body field, if present and a number. -/
def getNum (body : List (String × JVal)) (k : String) : Option Nat :=
  match body.find? (fun p => p.1 == k) with
  | some (_, JVal.num n) => some n
  | _ => none

/-- Optional numeric JSON field: `res.json` drops fields whose value is
`undefined`. -/
def optNumField (k : String) (v : Option Nat) : List (String × JVal) :=
  match v with
  | none => []
  | some n => [(k, JVal.num n)]

/-- Optional string JSON field. -/
def optStrField (k : String) (v : Option String) : List (String × JVal) :=
  match v with
  | none => []
  | some s => [(k, JVal.str s)]

/-- Body of a `catch` block response: 500 with a fixed title, the raw error
message, and a timestamp. -/
def catchResp (now : Nat) (title msg : String) : Response :=
  { status := 500,
    body := [("error", JVal.str title), ("message", JVal.str msg),
             ("timestamp", JVal.num now)] }

/-- The global error-handling middleware (part_000 lines 432-439): any error
passed to `next` (e.g. by multer) becomes a 500 envelope with a timestamp. -/
def errorMwResp (now : Nat) (msg : String) : Response :=
  { status := 500,
    body := [("error", JVal.str "Something went wrong!"), ("message", JVal.str msg),
             ("timestamp", JVal.num now)] }

/-- Successful upstream generation result (`response.body` of
`cohere.generate`): the generated text and optional billed-unit counts. -/
structure GenResult where
  text : String
  inputTokens : Option Nat
  outputTokens : Option Nat
  totalTokens : Option Nat

/-- Request body of POST /api/cohere/inference. `max_tokens` and `temperature`
are forwarded to the upstream call unchanged and never inspected, so they are
not part of the model. -/
structure CohereBody where
  prompt : Option String
  model : Option String

/-- POST /api/cohere/inference handler (part_000 lines 109-151; identical in
src/server.js lines 76-118). -/
def cohereInference (env : Env) (now : Nat) (body : CohereBody)
    (upstream : Except String GenResult) : Response × List Call :=
  if !jsTruthy body.prompt then
    ({ status := 400, body := [("error", JVal.str "Prompt is required")] }, [])
  else if !jsTruthy env.cohereApiKey then
    ({ status := 500, body := [("error", JVal.str "Cohere API key not configured")] }, [])
  else
    match upstream with
    | .ok r =>
      ({ status := 200,
         body := [("success", JVal.bool true), ("response", JVal.str r.text),
                  ("model", JVal.str (body.model.getD "command")),
                  ("usage", JVal.obj (optNumField "prompt_tokens" r.inputTokens ++
                    optNumField "completion_tokens" r.outputTokens ++
                    optNumField "total_tokens" r.totalTokens)),
                  ("timestamp", JVal.num now)] }, [Call.cohereGenerate])
    | .error msg => (catchResp now "Cohere inference failed" msg, [Call.cohereGenerate])

/-- POST /api/gcs/upload route handler body (part_000 lines 168-225), reached
only after multer. `save` and `sign` are the oracle results of `file.save` and
`file.getSignedUrl`. -/
def uploadHandler (env : Env) (now : Nat) (token : String) (file : Option UploadFile)
    (save : Except String Unit) (sign : Except String String) : Response × List Call :=
  match file with
  | none => ({ status := 400, body := [("error", JVal.str "No file uploaded")] }, [])
  | some f =>
    if !jsTruthy env.bucketName then
      ({ status := 500,
         body := [("error", JVal.str "Google Cloud Storage bucket not configured")] }, [])
    else
      let fileName := genFileName now token f.originalname
      match save with
      | .error msg => (catchResp now "File upload failed" msg, [Call.gcsSave fileName])
      | .ok _ =>
        match sign with
        | .error msg =>
          (catchResp now "File upload failed" msg,
           [Call.gcsSave fileName, Call.gcsSignUrl fileName (now + 24 * 60 * 60 * 1000)])
        | .ok url =>
          ({ status := 200,
             body := [("success", JVal.bool true), ("fileName", JVal.str fileName),
                      ("originalName", JVal.str f.originalname), ("size", JVal.num f.size),
                      ("mimeType", JVal.str f.mimetype), ("signedUrl", JVal.str url),
                      ("expiresAt", JVal.num (now + 24 * 60 * 60 * 1000)),
                      ("timestamp", JVal.num now)] },
           [Call.gcsSave fileName, Call.gcsSignUrl fileName (now + 24 * 60 * 60 * 1000)])

/-- POST /api/gcs/upload including the multer stage (part_000 lines 24-41):
a present file is first passed through `fileFilter`; a rejected file or an
oversized file makes multer hand an error to the error middleware and the route
handler never runs (empty call trace). -/
def uploadEndpoint (env : Env) (now : Nat) (token : String) (file : Option UploadFile)
    (save : Except String Unit) (sign : Except String String) : Response × List Call :=
  match file with
  | some f =>
    if !fileFilterAccept f.originalname f.mimetype then
      (errorMwResp now "Invalid file type", [])
    else if f.size > 10 * 1024 * 1024 then
      (errorMwResp now "File too large", [])
    else uploadHandler env now token (some f) save sign
  | none => uploadHandler env now token none save sign

/-- GET /api/gcs/download/:fileName handler (part_000 lines 228-268).
`fileExists` is the oracle result of `file.exists()`, `sign` of
`file.getSignedUrl`. -/
def downloadHandler (env : Env) (now : Nat) (fileName : String) (fileExists : Bool)
    (sign : Except String String) : Response × List Call :=
  if !jsTruthy env.bucketName then
    ({ status := 500,
       body := [("error", JVal.str "Google Cloud Storage bucket not configured")] }, [])
  else if !fileExists then
    ({ status := 404, body := [("error", JVal.str "File not found")] },
     [Call.gcsExists fileName])
  else
    match sign with
    | .error msg =>
      (catchResp now "File download failed" msg,
       [Call.gcsExists fileName, Call.gcsSignUrl fileName (now + 60 * 60 * 1000)])
    | .ok url =>
      ({ status := 200,
         body := [("success", JVal.bool true), ("fileName", JVal.str fileName),
                  ("downloadUrl", JVal.str url),
                  ("expiresAt", JVal.num (now + 60 * 60 * 1000)),
                  ("timestamp", JVal.num now)] },
       [Call.gcsExists fileName, Call.gcsSignUrl fileName (now + 60 * 60 * 1000)])

/-- One entry of `bucket.getFiles()`, reduced to the fields the handler reads. -/
structure GcsFileInfo where
  name : String
  size : Nat
  contentType : String
  timeCreated : String
  updated : String
  originalName : Option String

/-- JSON descriptor built for each listed file (part_000 lines 282-289). -/
def fileInfoJson (f : GcsFileInfo) : JVal :=
  JVal.obj [("name", JVal.str f.name), ("size", JVal.num f.size),
            ("contentType", JVal.str f.contentType),
            ("timeCreated", JVal.str f.timeCreated), ("updated", JVal.str f.updated),
            ("originalName", JVal.str (f.originalName.getD f.name))]

/-- GET /api/gcs/files handler (part_000 lines 271-306). -/
def listHandler (env : Env) (now : Nat)
    (files : Except String (List GcsFileInfo)) : Response × List Call :=
  if !jsTruthy env.bucketName then
    ({ status := 500,
       body := [("error", JVal.str "Google Cloud Storage bucket not configured")] }, [])
  else
    match files with
    | .error msg => (catchResp now "Failed to list files" msg, [Call.gcsGetFiles])
    | .ok fs =>
      ({ status := 200,
         body := [("success", JVal.bool true), ("files", JVal.arr (fs.map fileInfoJson)),
                  ("count", JVal.num fs.length), ("timestamp", JVal.num now)] },
       [Call.gcsGetFiles])

/-- DELETE /api/gcs/files/:fileName handler (part_000 lines 309-345). -/
def deleteHandler (env : Env) (now : Nat) (fileName : String) (fileExists : Bool)
    (del : Except String Unit) : Response × List Call :=
  if !jsTruthy env.bucketName then
    ({ status := 500,
       body := [("error", JVal.str "Google Cloud Storage bucket not configured")] }, [])
  else if !fileExists then
    ({ status := 404, body := [("error", JVal.str "File not found")] },
     [Call.gcsExists fileName])
  else
    match del with
    | .error msg =>
      (catchResp now "File deletion failed" msg,
       [Call.gcsExists fileName, Call.gcsDelete fileName])
    | .ok _ =>
      ({ status := 200,
         body := [("success", JVal.bool true),
                  ("message", JVal.str "File deleted successfully"),
                  ("fileName", JVal.str fileName), ("timestamp", JVal.num now)] },
       [Call.gcsExists fileName, Call.gcsDelete fileName])

/-- Raw metadata of `file.getMetadata()`, reduced to the fields the handler
reads; `customOriginalName` is the `originalName` entry of the custom map. -/
structure GcsMetadata where
  name : String
  size : Nat
  contentType : String
  timeCreated : String
  updated : String
  customOriginalName : Option String

/-- GET /api/gcs/files/:fileName/metadata handler (part_000 lines 348-386):
no existence probe; the oracle result of `getMetadata` is used directly and an
error lands in the catch block. -/
def metadataHandler (env : Env) (now : Nat) (fileName : String)
    (meta : Except String GcsMetadata) : Response × List Call :=
  if !jsTruthy env.bucketName then
    ({ status := 500,
       body := [("error", JVal.str "Google Cloud Storage bucket not configured")] }, [])
  else
    match meta with
    | .error msg => (catchResp now "Failed to get file metadata" msg, [Call.gcsGetMetadata fileName])
    | .ok m =>
      ({ status := 200,
         body := [("success", JVal.bool true), ("fileName", JVal.str fileName),
                  ("metadata", JVal.obj
                    [("name", JVal.str m.name), ("size", JVal.num m.size),
                     ("contentType", JVal.str m.contentType),
                     ("timeCreated", JVal.str m.timeCreated),
                     ("updated", JVal.str m.updated),
                     ("originalName", JVal.str (m.customOriginalName.getD m.name)),
                     ("customMetadata", JVal.obj (optStrField "originalName" m.customOriginalName))]),
                  ("timestamp", JVal.num now)] },
       [Call.gcsGetMetadata fileName])

/-- Service string for the Cohere entry of the health report (part_000 line 92). -/
def healthCohere (env : Env) : String :=
  if jsTruthy env.cohereApiKey then "configured" else "not configured"

/-- Service string for the GCS entry of the health report (part_000 line 93). -/
def healthGcs (env : Env) : String :=
  if jsTruthy env.bucketName then "configured" else "not configured"

/-- GET /api/health handler (part_000 lines 86-96; src/server.js lines 54-63
is the same without the gcs entry). -/
def healthHandler (env : Env) (now uptime : Nat) : Response :=
  { status := 200,
    body := [("status", JVal.str "OK"), ("uptime", JVal.num uptime),
             ("timestamp", JVal.num now),
             ("services", JVal.obj [("cohere", JVal.str (healthCohere env)),
                                    ("gcs", JVal.str (healthGcs env))])] }

/-- GET / handler (part_000 lines 77-83). -/
def rootHandler (now : Nat) : Response :=
  { status := 200,
    body := [("message", JVal.str "Proxy AI Inference Server is running!"),
             ("version", JVal.str "1.0.0"), ("timestamp", JVal.num now)] }

/-- POST /api/data handler (part_000 lines 99-106); an absent `data` field is
`undefined` and dropped from the JSON body. -/
def dataHandler (now : Nat) (d : Option JVal) : Response :=
  { status := 200,
    body := [("message", JVal.str "Data received successfully")] ++
            (match d with | some v => [("receivedData", v)] | none => []) ++
            [("timestamp", JVal.num now)] }

/-- GET /api/models handler (part_000 lines 154-163). -/
def modelsHandler (now : Nat) : Response :=
  { status := 200,
    body := [("cohere", JVal.obj
               [("models", JVal.arr (["command", "command-light", "command-nightly",
                  "command-light-nightly"].map JVal.str)),
                ("endpoint", JVal.str "/api/cohere/inference"),
                ("description", JVal.str "Cohere Command models for text generation")]),
             ("timestamp", JVal.num now)] }

/-- Keys and descriptions of the `endpoints` map of GET /api/docs
(part_000 lines 391-403). -/
def docsEndpoints : List (String × String) :=
  [("GET /", "Server status and version info"),
   ("GET /api/health", "Health check with service status"),
   ("GET /api/models", "Available AI models information"),
   ("GET /api/docs", "This API documentation"),
   ("POST /api/data", "Example endpoint that accepts JSON data"),
   ("POST /api/cohere/inference", "Cohere AI text generation"),
   ("POST /api/gcs/upload", "Upload file to Google Cloud Storage"),
   ("GET /api/gcs/download/:fileName", "Get signed URL for file download"),
   ("GET /api/gcs/files", "List all files in GCS bucket"),
   ("DELETE /api/gcs/files/:fileName", "Delete file from GCS bucket"),
   ("GET /api/gcs/files/:fileName/metadata", "Get file metadata")]

/-- GET /api/docs handler (part_000 lines 389-429). The `examples` object is
kept with its method/url/description strings; the literal example request
payloads are elided (no claim inspects them). -/
def docsHandler (now : Nat) : Response :=
  { status := 200,
    body := [("endpoints", JVal.obj (docsEndpoints.map (fun p => (p.1, JVal.str p.2)))),
             ("examples", JVal.obj
               [("cohere_inference", JVal.obj [("method", JVal.str "POST"),
                  ("url", JVal.str "/api/cohere/inference")]),
                ("gcs_upload", JVal.obj [("method", JVal.str "POST"),
                  ("url", JVal.str "/api/gcs/upload"),
                  ("description", JVal.str "Upload file to GCS with secure signed URL")]),
                ("gcs_download", JVal.obj [("method", JVal.str "GET"),
                  ("url", JVal.str "/api/gcs/download/1234567890-abc123.jpg"),
                  ("description", JVal.str "Get secure download URL for file")])]),
             ("timestamp", JVal.num now)] }

/-- The `available_endpoints` list of the 404 catch-all (part_000 lines 446-458). -/
def availableEndpoints : List String :=
  ["GET /", "GET /api/health", "GET /api/models", "GET /api/docs", "POST /api/data",
   "POST /api/cohere/inference", "POST /api/gcs/upload",
   "GET /api/gcs/download/:fileName", "GET /api/gcs/files",
   "DELETE /api/gcs/files/:fileName", "GET /api/gcs/files/:fileName/metadata"]

/-- The 404 catch-all handler (part_000 lines 442-461). -/
def notFoundHandler (now : Nat) (path : String) : Response :=
  { status := 404,
    body := [("error", JVal.str "Route not found"), ("path", JVal.str path),
             ("available_endpoints", JVal.arr (availableEndpoints.map JVal.str)),
             ("timestamp", JVal.num now)] }

/-- Keys of the `endpoints` map of GET /api/docs in src/server.js
(lines 135-142). -/
def serverJsDocsEndpointKeys : List String :=
  ["GET /", "GET /api/health", "GET /api/models", "GET /api/docs", "POST /api/data",
   "POST /api/cohere/inference"]

/-- The `available_endpoints` list of the 404 catch-all in src/server.js
(lines 174-181). -/
def serverJsAvailableEndpoints : List String :=
  ["GET /", "GET /api/health", "GET /api/models", "GET /api/docs", "POST /api/data",
   "POST /api/cohere/inference"]

/-- Character set of the digits produced by `Number.prototype.toString(36)`:
decimal digits and lowercase letters. -/
def isBase36 (c : Char) : Bool := c.isDigit || c.isLower

theorem isBase36_isAlphanum (c : Char) (h : isBase36 c = true) : c.isAlphanum = true := by
  unfold isBase36 at h
  rw [Bool.or_eq_true] at h
  rcases h with h | h <;> simp [Char.isAlphanum, Char.isAlpha, h]

theorem digitChar_isDigit (m : Nat) (h : m < 10) : (Nat.digitChar m).isDigit = true := by
  interval_cases m <;> decide

theorem toDigitsCore_digits (fuel : Nat) :
    ∀ (n : Nat) (ds : List Char), (∀ c ∈ ds, c.isDigit = true) →
      ∀ c ∈ Nat.toDigitsCore 10 fuel n ds, c.isDigit = true := by
  induction fuel with
  | zero => intro n ds hds; simpa [Nat.toDigitsCore] using hds
  | succ fuel ih =>
    intro n ds hds c hc
    rw [Nat.toDigitsCore] at hc
    by_cases h0 : n / 10 = 0
    · simp [h0] at hc
      rcases hc with h | h
      · exact h ▸ digitChar_isDigit _ (Nat.mod_lt _ (by norm_num))
      · exact hds _ h
    · simp [h0] at hc
      refine ih _ _ ?_ _ hc
      intro d hd
      rcases List.mem_cons.mp hd with h | h
      · exact h ▸ digitChar_isDigit _ (Nat.mod_lt _ (by norm_num))
      · exact hds _ h

theorem toDigitsCore_ne_nil (fuel : Nat) :
    ∀ (n : Nat) (ds : List Char), Nat.toDigitsCore 10 (fuel + 1) n ds ≠ [] := by
  induction fuel with
  | zero =>
    intro n ds
    rw [Nat.toDigitsCore]
    by_cases h0 : n / 10 = 0 <;> simp [h0, Nat.toDigitsCore]
  | succ fuel ih =>
    intro n ds
    rw [Nat.toDigitsCore]
    by_cases h0 : n / 10 = 0 <;> simp [h0]
    exact ih _ _

theorem splitOnDot_no_dot (l : List Char) (h : '.' ∉ l) : splitOnDot l = [l] := by
  induction l with
  | nil => rfl
  | cons c rest ih =>
    have hc : ¬ c = '.' := by
      intro e
      exact h (e ▸ List.mem_cons_self c rest)
    have hrest : '.' ∉ rest := fun hm => h (List.mem_cons_of_mem _ hm)
    simp [splitOnDot, hc, ih hrest]

theorem jsTruthy_iff (v : Option String) : jsTruthy v = true ↔ ∃ s, v = some s ∧ s ≠ "" := by
  cases v with
  | none => simp [jsTruthy]
  | some s => simp [jsTruthy]

theorem healthCohere_configured_iff (env : Env) :
    healthCohere env = "configured" ↔ jsTruthy env.cohereApiKey = true := by
  unfold healthCohere
  by_cases h : jsTruthy env.cohereApiKey <;> simp [h]

theorem healthGcs_configured_iff (env : Env) :
    healthGcs env = "configured" ↔ jsTruthy env.bucketName = true := by
  unfold healthGcs
  by_cases h : jsTruthy env.bucketName <;> simp [h]

/-- C2: a generation request whose `prompt` is absent or the empty string is
answered with HTTP 400 and the error "Prompt is required", and the upstream
text-generation client is never called (the call trace is empty). -/
theorem cohere_missing_prompt_rejected (env : Env) (now : Nat) (body : CohereBody)
    (upstream : Except String GenResult)
    (h : body.prompt = none ∨ body.prompt = some "") :
    (cohereInference env now body upstream).1.status = 400 ∧
    getStr (cohereInference env now body upstream).1.body "error" = some "Prompt is required" ∧
    (cohereInference env now body upstream).2 = [] := by
  rcases h with h | h <;> simp [cohereInference, jsTruthy, h, getStr]

theorem cohere_missing_prompt_rejected_witness :
    (cohereInference ⟨none, none⟩ 0 ⟨none, none⟩ (Except.error "boom")).1.status = 400 ∧
    getStr (cohereInference ⟨none, none⟩ 0 ⟨none, none⟩ (Except.error "boom")).1.body "error" =
      some "Prompt is required" ∧
    (cohereInference ⟨none, none⟩ 0 ⟨none, none⟩ (Except.error "boom")).2 = [] :=
  cohere_missing_prompt_rejected ⟨none, none⟩ 0 ⟨none, none⟩ (Except.error "boom") (Or.inl rfl)

/-- C8: the health report marks the Cohere service as "configured" iff the
credential env value is a non-empty string, and the GCS service as
"configured" iff the bucket-name env value is a non-empty string; the report
always has status 200 and embeds exactly these two service strings. -/
theorem health_configured_iff_nonempty (env : Env) (now uptime : Nat) :
    (("services", JVal.obj [("cohere", JVal.str (healthCohere env)),
        ("gcs", JVal.str (healthGcs env))]) ∈ (healthHandler env now uptime).body) ∧
    (healthCohere env = "configured" ↔ ∃ s, env.cohereApiKey = some s ∧ s ≠ "") ∧
    (healthGcs env = "configured" ↔ ∃ s, env.bucketName = some s ∧ s ≠ "") ∧
    (healthHandler env now uptime).status = 200 :=
  ⟨by simp [healthHandler],
   (healthCohere_configured_iff env).trans (jsTruthy_iff env.cohereApiKey),
   (healthGcs_configured_iff env).trans (jsTruthy_iff env.bucketName),
   rfl⟩

/-- C9: the catch-all handler returns 404, its body embeds the
`available_endpoints` list, and every route documented by GET /api/docs is in
that list (both for part_000 and for the reduced src/server.js variant). -/
theorem catch_all_404_lists_documented_routes (now : Nat) (path : String) :
    (notFoundHandler now path).status = 404 ∧
    docsEndpoints.all (fun p => availableEndpoints.contains p.1) = true ∧
    (("available_endpoints", JVal.arr (availableEndpoints.map JVal.str)) ∈
      (notFoundHandler now path).body) ∧
    serverJsDocsEndpointKeys.all (fun k => serverJsAvailableEndpoints.contains k) = true :=
  ⟨rfl, by decide, by simp [notFoundHandler], by decide⟩

/-- C10: for an upload accepted by the file filter whose original name has no
dot, the extension extraction returns the whole original name, so the
generated object name is the timestamp, a dash, the token, a dot, and the
entire original filename. -/
theorem no_dot_name_becomes_whole_extension (now : Nat) (token : String) (f : UploadFile)
    (_hacc : fileFilterAccept f.originalname f.mimetype = true)
    (hdot : '.' ∉ f.originalname.data) :
    jsExt f.originalname = f.originalname ∧
    (genFileName now token f.originalname).data =
      Nat.toDigits 10 now ++ '-' :: token.data ++ '.' :: f.originalname.data := by
  have h1 : jsExt f.originalname = f.originalname := by
    unfold jsExt
    rw [splitOnDot_no_dot _ hdot]
    rfl
  exact ⟨h1, by rw [genFileName, h1]⟩

theorem no_dot_name_becomes_whole_extension_witness :
    jsExt "txt" = "txt" ∧
    (genFileName 5 "q" "txt").data =
      Nat.toDigits 10 5 ++ '-' :: "q".data ++ '.' :: "txt".data :=
  no_dot_name_becomes_whole_extension 5 "q" ⟨"txt", "application/zip", 1⟩
    (by decide) (by decide)

/-- C1 counterexample: the file "png.exe" with MIME type "image/png" has the
extension "exe", which is not in the allowed set, yet the upload endpoint
accepts it (the unanchored regex matches "png" as a substring of the name),
invokes the storage client (two calls) and answers 200. -/
theorem upload_filter_accepts_disallowed_extension :
    jsExt (lowerStr "png.exe") = "exe" ∧
    "exe" ∉ allowedTokens ∧
    (uploadEndpoint ⟨some "k", some "bucket"⟩ 1000 "tok" (some ⟨"png.exe", "image/png", 5⟩)
        (Except.ok ()) (Except.ok "https://signed")).1.status = 200 ∧
    (uploadEndpoint ⟨some "k", some "bucket"⟩ 1000 "tok" (some ⟨"png.exe", "image/png", 5⟩)
        (Except.ok ()) (Except.ok "https://signed")).2.length = 2 := by
  refine ⟨by decide, by decide, by decide, by decide⟩

/-- C1 (amended): whenever the multer file filter rejects a file — that is,
when the lowercased original name and the raw MIME type do not both contain
one of the allowed tokens as a substring — the request is answered by the
error middleware with status 500 and message "Invalid file type", and no
storage call is made. -/
theorem upload_filter_reject_no_storage_call (env : Env) (now : Nat) (token : String)
    (f : UploadFile) (save : Except String Unit) (sign : Except String String)
    (h : fileFilterAccept f.originalname f.mimetype = false) :
    (uploadEndpoint env now token (some f) save sign).1.status = 500 ∧
    getStr (uploadEndpoint env now token (some f) save sign).1.body "message" =
      some "Invalid file type" ∧
    (uploadEndpoint env now token (some f) save sign).2 = [] := by
  have e : uploadEndpoint env now token (some f) save sign =
      (errorMwResp now "Invalid file type", []) := by
    simp [uploadEndpoint, h]
  rw [e]
  exact ⟨rfl, rfl, rfl⟩

theorem upload_filter_reject_no_storage_call_witness :
    (uploadEndpoint ⟨none, none⟩ 7 "t" (some ⟨"evil.bin", "application/octet", 3⟩)
        (Except.ok ()) (Except.ok "u")).1.status = 500 ∧
    getStr (uploadEndpoint ⟨none, none⟩ 7 "t" (some ⟨"evil.bin", "application/octet", 3⟩)
        (Except.ok ()) (Except.ok "u")).1.body "message" = some "Invalid file type" ∧
    (uploadEndpoint ⟨none, none⟩ 7 "t" (some ⟨"evil.bin", "application/octet", 3⟩)
        (Except.ok ()) (Except.ok "u")).2 = [] :=
  upload_filter_reject_no_storage_call ⟨none, none⟩ 7 "t" ⟨"evil.bin", "application/octet", 3⟩
    (Except.ok ()) (Except.ok "u") (by decide)

/-- C4 counterexample: the 400 envelope for a missing prompt carries no
timestamp field. -/
theorem missing_prompt_envelope_lacks_timestamp :
    hasField (cohereInference ⟨none, none⟩ 5 ⟨none, none⟩ (Except.error "e")).1.body
      "timestamp" = false ∧
    (cohereInference ⟨none, none⟩ 5 ⟨none, none⟩ (Except.error "e")).1.status = 400 := by
  decide

/-- C3: with the bucket configured, the download-link and delete handlers
probe existence first and answer 404 "File not found" for a missing object,
the probe being their only storage call in that case; the metadata handler
never performs an existence probe and surfaces the storage client's raw error
message in a catch 500. -/
theorem existence_probe_delete_download_not_metadata :
    (∀ (env : Env) (now : Nat) (name : String) (sign : Except String String),
      jsTruthy env.bucketName = true →
      (downloadHandler env now name false sign).1.status = 404 ∧
      getStr (downloadHandler env now name false sign).1.body "error" = some "File not found" ∧
      (downloadHandler env now name false sign).2 = [Call.gcsExists name]) ∧
    (∀ (env : Env) (now : Nat) (name : String) (del : Except String Unit),
      jsTruthy env.bucketName = true →
      (deleteHandler env now name false del).1.status = 404 ∧
      getStr (deleteHandler env now name false del).1.body "error" = some "File not found" ∧
      (deleteHandler env now name false del).2 = [Call.gcsExists name]) ∧
    (∀ (env : Env) (now : Nat) (name : String) (meta : Except String GcsMetadata),
      Call.gcsExists name ∉ (metadataHandler env now name meta).2) ∧
    (∀ (env : Env) (now : Nat) (name msg : String),
      jsTruthy env.bucketName = true →
      (metadataHandler env now name (Except.error msg)).1.status = 500 ∧
      getStr (metadataHandler env now name (Except.error msg)).1.body "message" = some msg) := by
  refine ⟨?_, ?_, ?_, ?_⟩
  · intro env now name sign h
    simp [downloadHandler, h, getStr]
  · intro env now name del h
    simp [deleteHandler, h, getStr]
  · intro env now name meta
    by_cases h : jsTruthy env.bucketName <;> cases meta <;>
      simp [metadataHandler, h]
  · intro env now name msg h
    simp [metadataHandler, h, catchResp, getStr]

theorem existence_probe_delete_download_not_metadata_witness :
    ((downloadHandler ⟨none, some "b"⟩ 1 "x.pdf" false (Except.ok "u")).1.status = 404 ∧
      getStr (downloadHandler ⟨none, some "b"⟩ 1 "x.pdf" false (Except.ok "u")).1.body "error" =
        some "File not found" ∧
      (downloadHandler ⟨none, some "b"⟩ 1 "x.pdf" false (Except.ok "u")).2 =
        [Call.gcsExists "x.pdf"]) ∧
    ((deleteHandler ⟨none, some "b"⟩ 1 "x.pdf" false (Except.ok ())).1.status = 404 ∧
      getStr (deleteHandler ⟨none, some "b"⟩ 1 "x.pdf" false (Except.ok ())).1.body "error" =
        some "File not found" ∧
      (deleteHandler ⟨none, some "b"⟩ 1 "x.pdf" false (Except.ok ())).2 =
        [Call.gcsExists "x.pdf"]) ∧
    (Call.gcsExists "x.pdf" ∉
      (metadataHandler ⟨none, some "b"⟩ 1 "x.pdf" (Except.error "No such object")).2) ∧
    ((metadataHandler ⟨none, some "b"⟩ 1 "x.pdf" (Except.error "No such object")).1.status = 500 ∧
      getStr (metadataHandler ⟨none, some "b"⟩ 1 "x.pdf"
        (Except.error "No such object")).1.body "message" = some "No such object") := by
  obtain ⟨h1, h2, h3, h4⟩ := existence_probe_delete_download_not_metadata
  exact ⟨h1 ⟨none, some "b"⟩ 1 "x.pdf" (Except.ok "u") (by decide),
         h2 ⟨none, some "b"⟩ 1 "x.pdf" (Except.ok ()) (by decide),
         h3 ⟨none, some "b"⟩ 1 "x.pdf" (Except.error "No such object"),
         h4 ⟨none, some "b"⟩ 1 "x.pdf" "No such object" (by decide)⟩

/-- C6 counterexample: a legal upload (it passes the file filter) named
"1700000000000-abc.pdf" collides with the name generated at timestamp
1700000000000 with token "abc": the generated name equals the original
filename, so the generated name is not always distinct from the original. -/
theorem gen_filename_collides_with_original :
    fileFilterAccept "1700000000000-abc.pdf" "application/pdf" = true ∧
    '.' ∈ ("1700000000000-abc.pdf").data ∧
    jsExt "1700000000000-abc.pdf" = "pdf" ∧
    genFileName 1700000000000 "abc" "1700000000000-abc.pdf" = "1700000000000-abc.pdf" := by
  decide

/-- C6 (amended): for every upload whose original name has an extension, the
generated name is the decimal timestamp (non-empty, all digits), a dash, the
random token (alphanumeric, since base-36 digits are alphanumeric), a dot and
the original extension; it is distinct from the original filename whenever the
original contains no dash (collision is possible for dash-containing originals
of exactly the generated shape, see the counterexample). -/
theorem gen_filename_pattern_and_distinct (now : Nat) (token orig : String)
    (htok : ∀ c ∈ token.data, isBase36 c = true)
    (_hext : '.' ∈ orig.data) (hdash : '-' ∉ orig.data) :
    (∃ d t, (genFileName now token orig).data = d ++ '-' :: t ++ '.' :: (jsExt orig).data ∧
      d ≠ [] ∧ (∀ c ∈ d, c.isDigit = true) ∧ (∀ c ∈ t, c.isAlphanum = true)) ∧
    genFileName now token orig ≠ orig := by
  constructor
  · refine ⟨Nat.toDigits 10 now, token.data, rfl, ?_, ?_, ?_⟩
    · show Nat.toDigitsCore 10 (now + 1) now [] ≠ []
      exact toDigitsCore_ne_nil now now []
    · intro c hc
      exact toDigitsCore_digits (now + 1) now [] (by simp) c hc
    · intro c hc
      exact isBase36_isAlphanum c (htok c hc)
  · intro he
    have hmem : '-' ∈ (genFileName now token orig).data := by
      rw [show (genFileName now token orig).data =
          Nat.toDigits 10 now ++ '-' :: token.data ++ '.' :: (jsExt orig).data from rfl]
      exact List.mem_append.mpr (Or.inl (List.mem_append.mpr
        (Or.inr (List.mem_cons_self _ _))))
    rw [congrArg String.data he] at hmem
    exact hdash hmem

theorem gen_filename_pattern_and_distinct_witness :
    (∃ d t, (genFileName 3 "ab" "report.pdf").data =
        d ++ '-' :: t ++ '.' :: (jsExt "report.pdf").data ∧
      d ≠ [] ∧ (∀ c ∈ d, c.isDigit = true) ∧ (∀ c ∈ t, c.isAlphanum = true)) ∧
    genFileName 3 "ab" "report.pdf" ≠ "report.pdf" :=
  gen_filename_pattern_and_distinct 3 "ab" "report.pdf" (by decide) (by decide) (by decide)

/-- C7: on the success path, the upload handler requests a signed link that
expires 24 hours after the request time and reports the same instant in
`expiresAt`; the download-link handler does the same with 1 hour. -/
theorem signed_url_expiry_durations :
    (∀ (env : Env) (now : Nat) (token : String) (f : UploadFile) (url : String),
      jsTruthy env.bucketName = true →
      (uploadHandler env now token (some f) (Except.ok ()) (Except.ok url)).2 =
        [Call.gcsSave (genFileName now token f.originalname),
         Call.gcsSignUrl (genFileName now token f.originalname) (now + 24 * 60 * 60 * 1000)] ∧
      getNum (uploadHandler env now token (some f) (Except.ok ())
        (Except.ok url)).1.body "expiresAt" = some (now + 24 * 60 * 60 * 1000)) ∧
    (∀ (env : Env) (now : Nat) (name url : String),
      jsTruthy env.bucketName = true →
      (downloadHandler env now name true (Except.ok url)).2 =
        [Call.gcsExists name, Call.gcsSignUrl name (now + 60 * 60 * 1000)] ∧
      getNum (downloadHandler env now name true (Except.ok url)).1.body "expiresAt" =
        some (now + 60 * 60 * 1000)) := by
  constructor
  · intro env now token f url h
    simp [uploadHandler, h, getNum]
  · intro env now name url h
    simp [downloadHandler, h, getNum]

theorem signed_url_expiry_durations_witness :
    ((uploadHandler ⟨none, some "b"⟩ 10 "tk" (some ⟨"a.pdf", "application/pdf", 9⟩)
        (Except.ok ()) (Except.ok "u")).2 =
      [Call.gcsSave (genFileName 10 "tk" "a.pdf"),
       Call.gcsSignUrl (genFileName 10 "tk" "a.pdf") (10 + 24 * 60 * 60 * 1000)] ∧
      getNum (uploadHandler ⟨none, some "b"⟩ 10 "tk" (some ⟨"a.pdf", "application/pdf", 9⟩)
        (Except.ok ()) (Except.ok "u")).1.body "expiresAt" =
        some (10 + 24 * 60 * 60 * 1000)) ∧
    ((downloadHandler ⟨none, some "b"⟩ 10 "a.pdf" true (Except.ok "u")).2 =
      [Call.gcsExists "a.pdf", Call.gcsSignUrl "a.pdf" (10 + 60 * 60 * 1000)] ∧
      getNum (downloadHandler ⟨none, some "b"⟩ 10 "a.pdf" true
        (Except.ok "u")).1.body "expiresAt" = some (10 + 60 * 60 * 1000)) := by
  obtain ⟨h1, h2⟩ := signed_url_expiry_durations
  exact ⟨h1 ⟨none, some "b"⟩ 10 "tk" ⟨"a.pdf", "application/pdf", 9⟩ "u" (by decide),
         h2 ⟨none, some "b"⟩ 10 "a.pdf" "u" (by decide)⟩

/-- C4 (amended): success envelopes, catch-block error envelopes (including
the error middleware) and the static and catch-all endpoints carry a
timestamp; the inline validation and not-found error envelopes (missing or
empty prompt, unconfigured Cohere key, missing file, unconfigured bucket,
file not found) carry none. -/
theorem timestamp_presence_by_branch :
    (∀ (env : Env) (now up : Nat) (path : String) (d : Option JVal) (msg : String),
      hasField (rootHandler now).body "timestamp" = true ∧
      hasField (healthHandler env now up).body "timestamp" = true ∧
      hasField (modelsHandler now).body "timestamp" = true ∧
      hasField (docsHandler now).body "timestamp" = true ∧
      hasField (dataHandler now d).body "timestamp" = true ∧
      hasField (notFoundHandler now path).body "timestamp" = true ∧
      hasField (errorMwResp now msg).body "timestamp" = true) ∧
    (∀ (env : Env) (now : Nat) (b : CohereBody) (u : Except String GenResult),
      jsTruthy b.prompt = false →
      hasField (cohereInference env now b u).1.body "timestamp" = false) ∧
    (∀ (env : Env) (now : Nat) (b : CohereBody) (u : Except String GenResult),
      jsTruthy b.prompt = true → jsTruthy env.cohereApiKey = false →
      hasField (cohereInference env now b u).1.body "timestamp" = false) ∧
    (∀ (env : Env) (now : Nat) (b : CohereBody) (r : GenResult),
      jsTruthy b.prompt = true → jsTruthy env.cohereApiKey = true →
      hasField (cohereInference env now b (Except.ok r)).1.body "timestamp" = true) ∧
    (∀ (env : Env) (now : Nat) (b : CohereBody) (msg : String),
      jsTruthy b.prompt = true → jsTruthy env.cohereApiKey = true →
      hasField (cohereInference env now b (Except.error msg)).1.body "timestamp" = true) ∧
    (∀ (env : Env) (now : Nat) (tk : String) (sv : Except String Unit)
      (sg : Except String String),
      hasField (uploadHandler env now tk none sv sg).1.body "timestamp" = false) ∧
    (∀ (env : Env) (now : Nat) (tk : String) (f : UploadFile) (sv : Except String Unit)
      (sg : Except String String), jsTruthy env.bucketName = false →
      hasField (uploadHandler env now tk (some f) sv sg).1.body "timestamp" = false) ∧
    (∀ (env : Env) (now : Nat) (tk msg : String) (f : UploadFile)
      (sg : Except String String), jsTruthy env.bucketName = true →
      hasField (uploadHandler env now tk (some f) (Except.error msg) sg).1.body
        "timestamp" = true) ∧
    (∀ (env : Env) (now : Nat) (tk msg : String) (f : UploadFile),
      jsTruthy env.bucketName = true →
      hasField (uploadHandler env now tk (some f) (Except.ok ())
        (Except.error msg)).1.body "timestamp" = true) ∧
    (∀ (env : Env) (now : Nat) (tk url : String) (f : UploadFile),
      jsTruthy env.bucketName = true →
      hasField (uploadHandler env now tk (some f) (Except.ok ())
        (Except.ok url)).1.body "timestamp" = true) ∧
    (∀ (env : Env) (now : Nat) (tk : String) (f : UploadFile) (sv : Except String Unit)
      (sg : Except String String), fileFilterAccept f.originalname f.mimetype = false →
      hasField (uploadEndpoint env now tk (some f) sv sg).1.body "timestamp" = true) ∧
    (∀ (env : Env) (now : Nat) (nm : String) (ex : Bool) (sg : Except String String),
      jsTruthy env.bucketName = false →
      hasField (downloadHandler env now nm ex sg).1.body "timestamp" = false) ∧
    (∀ (env : Env) (now : Nat) (nm : String) (sg : Except String String),
      jsTruthy env.bucketName = true →
      hasField (downloadHandler env now nm false sg).1.body "timestamp" = false) ∧
    (∀ (env : Env) (now : Nat) (nm msg : String), jsTruthy env.bucketName = true →
      hasField (downloadHandler env now nm true (Except.error msg)).1.body
        "timestamp" = true) ∧
    (∀ (env : Env) (now : Nat) (nm url : String), jsTruthy env.bucketName = true →
      hasField (downloadHandler env now nm true (Except.ok url)).1.body
        "timestamp" = true) ∧
    (∀ (env : Env) (now : Nat) (fs : Except String (List GcsFileInfo)),
      jsTruthy env.bucketName = false →
      hasField (listHandler env now fs).1.body "timestamp" = false) ∧
    (∀ (env : Env) (now : Nat) (msg : String), jsTruthy env.bucketName = true →
      hasField (listHandler env now (Except.error msg)).1.body "timestamp" = true) ∧
    (∀ (env : Env) (now : Nat) (fs : List GcsFileInfo), jsTruthy env.bucketName = true →
      hasField (listHandler env now (Except.ok fs)).1.body "timestamp" = true) ∧
    (∀ (env : Env) (now : Nat) (nm : String) (ex : Bool) (dl : Except String Unit),
      jsTruthy env.bucketName = false →
      hasField (deleteHandler env now nm ex dl).1.body "timestamp" = false) ∧
    (∀ (env : Env) (now : Nat) (nm : String) (dl : Except String Unit),
      jsTruthy env.bucketName = true →
      hasField (deleteHandler env now nm false dl).1.body "timestamp" = false) ∧
    (∀ (env : Env) (now : Nat) (nm msg : String), jsTruthy env.bucketName = true →
      hasField (deleteHandler env now nm true (Except.error msg)).1.body
        "timestamp" = true) ∧
    (∀ (env : Env) (now : Nat) (nm : String), jsTruthy env.bucketName = true →
      hasField (deleteHandler env now nm true (Except.ok ())).1.body "timestamp" = true) ∧
    (∀ (env : Env) (now : Nat) (nm : String) (mt : Except String GcsMetadata),
      jsTruthy env.bucketName = false →
      hasField (metadataHandler env now nm mt).1.body "timestamp" = false) ∧
    (∀ (env : Env) (now : Nat) (nm msg : String), jsTruthy env.bucketName = true →
      hasField (metadataHandler env now nm (Except.error msg)).1.body
        "timestamp" = true) ∧
    (∀ (env : Env) (now : Nat) (nm : String) (m : GcsMetadata),
      jsTruthy env.bucketName = true →
      hasField (metadataHandler env now nm (Except.ok m)).1.body "timestamp" = true) := by
  refine ⟨?_, ?_, ?_, ?_, ?_, ?_, ?_, ?_, ?_, ?_, ?_, ?_, ?_, ?_, ?_, ?_, ?_, ?_, ?_,
    ?_, ?_, ?_, ?_, ?_, ?_⟩
  · intro env now up path d msg
    rcases d with _ | v <;>
      simp [rootHandler, healthHandler, modelsHandler, docsHandler, dataHandler,
        notFoundHandler, errorMwResp, hasField]
  · intro env now b u h
    simp [cohereInference, h, hasField]
  · intro env now b u h hk
    simp [cohereInference, h, hk, hasField]
  · intro env now b r h hk
    simp [cohereInference, h, hk, hasField]
  · intro env now b msg h hk
    simp [cohereInference, h, hk, catchResp, hasField]
  · intro env now tk sv sg
    simp [uploadHandler, hasField]
  · intro env now tk f sv sg h
    simp [uploadHandler, h, hasField]
  · intro env now tk msg f sg h
    simp [uploadHandler, h, catchResp, hasField]
  · intro env now tk msg f h
    simp [uploadHandler, h, catchResp, hasField]
  · intro env now tk url f h
    simp [uploadHandler, h, hasField]
  · intro env now tk f sv sg h
    simp [uploadEndpoint, h, errorMwResp, hasField]
  · intro env now nm ex sg h
    simp [downloadHandler, h, hasField]
  · intro env now nm sg h
    simp [downloadHandler, h, hasField]
  · intro env now nm msg h
    simp [downloadHandler, h, catchResp, hasField]
  · intro env now nm url h
    simp [downloadHandler, h, hasField]
  · intro env now fs h
    simp [listHandler, h, hasField]
  · intro env now msg h
    simp [listHandler, h, catchResp, hasField]
  · intro env now fs h
    simp [listHandler, h, hasField]
  · intro env now nm ex dl h
    simp [deleteHandler, h, hasField]
  · intro env now nm dl h
    simp [deleteHandler, h, hasField]
  · intro env now nm msg h
    simp [deleteHandler, h, catchResp, hasField]
  · intro env now nm h
    simp [deleteHandler, h, hasField]
  · intro env now nm mt h
    simp [metadataHandler, h, hasField]
  · intro env now nm msg h
    simp [metadataHandler, h, catchResp, hasField]
  · intro env now nm m h
    simp [metadataHandler, h, hasField]

theorem timestamp_presence_by_branch_witness :
    (hasField (rootHandler 1).body "timestamp" = true ∧
      hasField (healthHandler ⟨none, none⟩ 1 2).body "timestamp" = true ∧
      hasField (modelsHandler 1).body "timestamp" = true ∧
      hasField (docsHandler 1).body "timestamp" = true ∧
      hasField (dataHandler 1 none).body "timestamp" = true ∧
      hasField (notFoundHandler 1 "/x").body "timestamp" = true ∧
      hasField (errorMwResp 1 "m").body "timestamp" = true) ∧
    hasField (cohereInference ⟨none, none⟩ 1 ⟨none, none⟩
      (Except.error "e")).1.body "timestamp" = false ∧
    hasField (cohereInference ⟨none, none⟩ 1 ⟨some "hi", none⟩
      (Except.error "e")).1.body "timestamp" = false ∧
    hasField (cohereInference ⟨some "k", none⟩ 1 ⟨some "hi", none⟩
      (Except.ok ⟨"t", none, none, none⟩)).1.body "timestamp" = true ∧
    hasField (cohereInference ⟨some "k", none⟩ 1 ⟨some "hi", none⟩
      (Except.error "e")).1.body "timestamp" = true ∧
    hasField (uploadHandler ⟨none, none⟩ 1 "tk" none (Except.ok ())
      (Except.ok "u")).1.body "timestamp" = false ∧
    hasField (uploadHandler ⟨none, none⟩ 1 "tk" (some ⟨"a.pdf", "application/pdf", 9⟩)
      (Except.ok ()) (Except.ok "u")).1.body "timestamp" = false ∧
    hasField (uploadHandler ⟨none, some "b"⟩ 1 "tk" (some ⟨"a.pdf", "application/pdf", 9⟩)
      (Except.error "e") (Except.ok "u")).1.body "timestamp" = true ∧
    hasField (uploadHandler ⟨none, some "b"⟩ 1 "tk" (some ⟨"a.pdf", "application/pdf", 9⟩)
      (Except.ok ()) (Except.error "e")).1.body "timestamp" = true ∧
    hasField (uploadHandler ⟨none, some "b"⟩ 1 "tk" (some ⟨"a.pdf", "application/pdf", 9⟩)
      (Except.ok ()) (Except.ok "u")).1.body "timestamp" = true ∧
    hasField (uploadEndpoint ⟨none, none⟩ 1 "tk" (some ⟨"evil.bin", "application/octet", 3⟩)
      (Except.ok ()) (Except.ok "u")).1.body "timestamp" = true ∧
    hasField (downloadHandler ⟨none, none⟩ 1 "n" true (Except.ok "u")).1.body
      "timestamp" = false ∧
    hasField (downloadHandler ⟨none, some "b"⟩ 1 "n" false (Except.ok "u")).1.body
      "timestamp" = false ∧
    hasField (downloadHandler ⟨none, some "b"⟩ 1 "n" true (Except.error "e")).1.body
      "timestamp" = true ∧
    hasField (downloadHandler ⟨none, some "b"⟩ 1 "n" true (Except.ok "u")).1.body
      "timestamp" = true ∧
    hasField (listHandler ⟨none, none⟩ 1 (Except.ok [])).1.body "timestamp" = false ∧
    hasField (listHandler ⟨none, some "b"⟩ 1 (Except.error "e")).1.body "timestamp" = true ∧
    hasField (listHandler ⟨none, some "b"⟩ 1 (Except.ok [])).1.body "timestamp" = true ∧
    hasField (deleteHandler ⟨none, none⟩ 1 "n" true (Except.ok ())).1.body
      "timestamp" = false ∧
    hasField (deleteHandler ⟨none, some "b"⟩ 1 "n" false (Except.ok ())).1.body
      "timestamp" = false ∧
    hasField (deleteHandler ⟨none, some "b"⟩ 1 "n" true (Except.error "e")).1.body
      "timestamp" = true ∧
    hasField (deleteHandler ⟨none, some "b"⟩ 1 "n" true (Except.ok ())).1.body
      "timestamp" = true ∧
    hasField (metadataHandler ⟨none, none⟩ 1 "n"
      (Except.ok ⟨"n", 1, "ct", "t1", "t2", none⟩)).1.body "timestamp" = false ∧
    hasField (metadataHandler ⟨none, some "b"⟩ 1 "n" (Except.error "e")).1.body
      "timestamp" = true ∧
    hasField (metadataHandler ⟨none, some "b"⟩ 1 "n"
      (Except.ok ⟨"n", 1, "ct", "t1", "t2", none⟩)).1.body "timestamp" = true := by
  obtain ⟨h1, h2, h3, h4, h5, h6, h7, h8, h9, h10, h11, h12, h13, h14, h15, h16, h17,
    h18, h19, h20, h21, h22, h23, h24, h25⟩ := timestamp_presence_by_branch
  exact ⟨h1 ⟨none, none⟩ 1 2 "/x" none "m",
    h2 ⟨none, none⟩ 1 ⟨none, none⟩ (Except.error "e") (by decide),
    h3 ⟨none, none⟩ 1 ⟨some "hi", none⟩ (Except.error "e") (by decide) (by decide),
    h4 ⟨some "k", none⟩ 1 ⟨some "hi", none⟩ ⟨"t", none, none, none⟩ (by decide) (by decide),
    h5 ⟨some "k", none⟩ 1 ⟨some "hi", none⟩ "e" (by decide) (by decide),
    h6 ⟨none, none⟩ 1 "tk" (Except.ok ()) (Except.ok "u"),
    h7 ⟨none, none⟩ 1 "tk" ⟨"a.pdf", "application/pdf", 9⟩ (Except.ok ()) (Except.ok "u")
      (by decide),
    h8 ⟨none, some "b"⟩ 1 "tk" "e" ⟨"a.pdf", "application/pdf", 9⟩ (Except.ok "u")
      (by decide),
    h9 ⟨none, some "b"⟩ 1 "tk" "e" ⟨"a.pdf", "application/pdf", 9⟩ (by decide),
    h10 ⟨none, some "b"⟩ 1 "tk" "u" ⟨"a.pdf", "application/pdf", 9⟩ (by decide),
    h11 ⟨none, none⟩ 1 "tk" ⟨"evil.bin", "application/octet", 3⟩ (Except.ok ())
      (Except.ok "u") (by decide),
    h12 ⟨none, none⟩ 1 "n" true (Except.ok "u") (by decide),
    h13 ⟨none, some "b"⟩ 1 "n" (Except.ok "u") (by decide),
    h14 ⟨none, some "b"⟩ 1 "n" "e" (by decide),
    h15 ⟨none, some "b"⟩ 1 "n" "u" (by decide),
    h16 ⟨none, none⟩ 1 (Except.ok []) (by decide),
    h17 ⟨none, some "b"⟩ 1 "e" (by decide),
    h18 ⟨none, some "b"⟩ 1 [] (by decide),
    h19 ⟨none, none⟩ 1 "n" true (Except.ok ()) (by decide),
    h20 ⟨none, some "b"⟩ 1 "n" (Except.ok ()) (by decide),
    h21 ⟨none, some "b"⟩ 1 "n" "e" (by decide),
    h22 ⟨none, some "b"⟩ 1 "n" (by decide),
    h23 ⟨none, none⟩ 1 "n" (Except.ok ⟨"n", 1, "ct", "t1", "t2", none⟩) (by decide),
    h24 ⟨none, some "b"⟩ 1 "n" "e" (by decide),
    h25 ⟨none, some "b"⟩ 1 "n" ⟨"n", 1, "ct", "t1", "t2", none⟩ (by decide)⟩

/-- C5: statuses are chosen per failure kind — missing prompt and missing
file give 400, unconfigured service gives 500, a missing object gives 404,
an upstream (catch-block) failure gives 500 — and every success, including
resource creation by upload, returns 200, never 201. -/
theorem status_codes_by_failure_kind :
    (∀ (env : Env) (now up : Nat) (d : Option JVal),
      (rootHandler now).status = 200 ∧ (healthHandler env now up).status = 200 ∧
      (modelsHandler now).status = 200 ∧ (docsHandler now).status = 200 ∧
      (dataHandler now d).status = 200) ∧
    (∀ (env : Env) (now : Nat) (b : CohereBody) (u : Except String GenResult),
      jsTruthy b.prompt = false → (cohereInference env now b u).1.status = 400) ∧
    (∀ (env : Env) (now : Nat) (b : CohereBody) (u : Except String GenResult),
      jsTruthy b.prompt = true → jsTruthy env.cohereApiKey = false →
      (cohereInference env now b u).1.status = 500) ∧
    (∀ (env : Env) (now : Nat) (b : CohereBody) (r : GenResult),
      jsTruthy b.prompt = true → jsTruthy env.cohereApiKey = true →
      (cohereInference env now b (Except.ok r)).1.status = 200) ∧
    (∀ (env : Env) (now : Nat) (b : CohereBody) (msg : String),
      jsTruthy b.prompt = true → jsTruthy env.cohereApiKey = true →
      (cohereInference env now b (Except.error msg)).1.status = 500) ∧
    (∀ (env : Env) (now : Nat) (tk : String) (sv : Except String Unit)
      (sg : Except String String),
      (uploadHandler env now tk none sv sg).1.status = 400) ∧
    (∀ (env : Env) (now : Nat) (tk : String) (f : UploadFile) (sv : Except String Unit)
      (sg : Except String String), jsTruthy env.bucketName = false →
      (uploadHandler env now tk (some f) sv sg).1.status = 500) ∧
    (∀ (env : Env) (now : Nat) (tk msg : String) (f : UploadFile)
      (sg : Except String String), jsTruthy env.bucketName = true →
      (uploadHandler env now tk (some f) (Except.error msg) sg).1.status = 500) ∧
    (∀ (env : Env) (now : Nat) (tk msg : String) (f : UploadFile),
      jsTruthy env.bucketName = true →
      (uploadHandler env now tk (some f) (Except.ok ())
        (Except.error msg)).1.status = 500) ∧
    (∀ (env : Env) (now : Nat) (tk url : String) (f : UploadFile),
      jsTruthy env.bucketName = true →
      (uploadHandler env now tk (some f) (Except.ok ()) (Except.ok url)).1.status = 200) ∧
    (∀ (env : Env) (now : Nat) (nm : String) (ex : Bool) (sg : Except String String),
      jsTruthy env.bucketName = false →
      (downloadHandler env now nm ex sg).1.status = 500) ∧
    (∀ (env : Env) (now : Nat) (nm : String) (sg : Except String String),
      jsTruthy env.bucketName = true →
      (downloadHandler env now nm false sg).1.status = 404) ∧
    (∀ (env : Env) (now : Nat) (nm msg : String), jsTruthy env.bucketName = true →
      (downloadHandler env now nm true (Except.error msg)).1.status = 500) ∧
    (∀ (env : Env) (now : Nat) (nm url : String), jsTruthy env.bucketName = true →
      (downloadHandler env now nm true (Except.ok url)).1.status = 200) ∧
    (∀ (env : Env) (now : Nat) (fs : Except String (List GcsFileInfo)),
      jsTruthy env.bucketName = false → (listHandler env now fs).1.status = 500) ∧
    (∀ (env : Env) (now : Nat) (msg : String), jsTruthy env.bucketName = true →
      (listHandler env now (Except.error msg)).1.status = 500) ∧
    (∀ (env : Env) (now : Nat) (fs : List GcsFileInfo), jsTruthy env.bucketName = true →
      (listHandler env now (Except.ok fs)).1.status = 200) ∧
    (∀ (env : Env) (now : Nat) (nm : String) (ex : Bool) (dl : Except String Unit),
      jsTruthy env.bucketName = false →
      (deleteHandler env now nm ex dl).1.status = 500) ∧
    (∀ (env : Env) (now : Nat) (nm : String) (dl : Except String Unit),
      jsTruthy env.bucketName = true →
      (deleteHandler env now nm false dl).1.status = 404) ∧
    (∀ (env : Env) (now : Nat) (nm msg : String), jsTruthy env.bucketName = true →
      (deleteHandler env now nm true (Except.error msg)).1.status = 500) ∧
    (∀ (env : Env) (now : Nat) (nm : String), jsTruthy env.bucketName = true →
      (deleteHandler env now nm true (Except.ok ())).1.status = 200) ∧
    (∀ (env : Env) (now : Nat) (nm : String) (mt : Except String GcsMetadata),
      jsTruthy env.bucketName = false →
      (metadataHandler env now nm mt).1.status = 500) ∧
    (∀ (env : Env) (now : Nat) (nm msg : String), jsTruthy env.bucketName = true →
      (metadataHandler env now nm (Except.error msg)).1.status = 500) ∧
    (∀ (env : Env) (now : Nat) (nm : String) (m : GcsMetadata),
      jsTruthy env.bucketName = true →
      (metadataHandler env now nm (Except.ok m)).1.status = 200) := by
  refine ⟨?_, ?_, ?_, ?_, ?_, ?_, ?_, ?_, ?_, ?_, ?_, ?_, ?_, ?_, ?_, ?_, ?_, ?_, ?_,
    ?_, ?_, ?_, ?_, ?_⟩
  · intro env now up d
    exact ⟨rfl, rfl, rfl, rfl, rfl⟩
  · intro env now b u h
    simp [cohereInference, h]
  · intro env now b u h hk
    simp [cohereInference, h, hk]
  · intro env now b r h hk
    simp [cohereInference, h, hk]
  · intro env now b msg h hk
    simp [cohereInference, h, hk, catchResp]
  · intro env now tk sv sg
    simp [uploadHandler]
  · intro env now tk f sv sg h
    simp [uploadHandler, h]
  · intro env now tk msg f sg h
    simp [uploadHandler, h, catchResp]
  · intro env now tk msg f h
    simp [uploadHandler, h, catchResp]
  · intro env now tk url f h
    simp [uploadHandler, h]
  · intro env now nm ex sg h
    simp [downloadHandler, h]
  · intro env now nm sg h
    simp [downloadHandler, h]
  · intro env now nm msg h
    simp [downloadHandler, h, catchResp]
  · intro env now nm url h
    simp [downloadHandler, h]
  · intro env now fs h
    simp [listHandler, h]
  · intro env now msg h
    simp [listHandler, h, catchResp]
  · intro env now fs h
    simp [listHandler, h]
  · intro env now nm ex dl h
    simp [deleteHandler, h]
  · intro env now nm dl h
    simp [deleteHandler, h]
  · intro env now nm msg h
    simp [deleteHandler, h, catchResp]
  · intro env now nm h
    simp [deleteHandler, h]
  · intro env now nm mt h
    simp [metadataHandler, h]
  · intro env now nm msg h
    simp [metadataHandler, h, catchResp]
  · intro env now nm m h
    simp [metadataHandler, h]

theorem status_codes_by_failure_kind_witness :
    ((rootHandler 1).status = 200 ∧ (healthHandler ⟨none, none⟩ 1 2).status = 200 ∧
      (modelsHandler 1).status = 200 ∧ (docsHandler 1).status = 200 ∧
      (dataHandler 1 none).status = 200) ∧
    (cohereInference ⟨none, none⟩ 1 ⟨none, none⟩ (Except.error "e")).1.status = 400 ∧
    (cohereInference ⟨none, none⟩ 1 ⟨some "hi", none⟩ (Except.error "e")).1.status = 500 ∧
    (cohereInference ⟨some "k", none⟩ 1 ⟨some "hi", none⟩
      (Except.ok ⟨"t", none, none, none⟩)).1.status = 200 ∧
    (cohereInference ⟨some "k", none⟩ 1 ⟨some "hi", none⟩
      (Except.error "e")).1.status = 500 ∧
    (uploadHandler ⟨none, none⟩ 1 "tk" none (Except.ok ())
      (Except.ok "u")).1.status = 400 ∧
    (uploadHandler ⟨none, none⟩ 1 "tk" (some ⟨"a.pdf", "application/pdf", 9⟩)
      (Except.ok ()) (Except.ok "u")).1.status = 500 ∧
    (uploadHandler ⟨none, some "b"⟩ 1 "tk" (some ⟨"a.pdf", "application/pdf", 9⟩)
      (Except.error "e") (Except.ok "u")).1.status = 500 ∧
    (uploadHandler ⟨none, some "b"⟩ 1 "tk" (some ⟨"a.pdf", "application/pdf", 9⟩)
      (Except.ok ()) (Except.error "e")).1.status = 500 ∧
    (uploadHandler ⟨none, some "b"⟩ 1 "tk" (some ⟨"a.pdf", "application/pdf", 9⟩)
      (Except.ok ()) (Except.ok "u")).1.status = 200 ∧
    (downloadHandler ⟨none, none⟩ 1 "n" true (Except.ok "u")).1.status = 500 ∧
    (downloadHandler ⟨none, some "b"⟩ 1 "n" false (Except.ok "u")).1.status = 404 ∧
    (downloadHandler ⟨none, some "b"⟩ 1 "n" true (Except.error "e")).1.status = 500 ∧
    (downloadHandler ⟨none, some "b"⟩ 1 "n" true (Except.ok "u")).1.status = 200 ∧
    (listHandler ⟨none, none⟩ 1 (Except.ok [])).1.status = 500 ∧
    (listHandler ⟨none, some "b"⟩ 1 (Except.error "e")).1.status = 500 ∧
    (listHandler ⟨none, some "b"⟩ 1 (Except.ok [])).1.status = 200 ∧
    (deleteHandler ⟨none, none⟩ 1 "n" true (Except.ok ())).1.status = 500 ∧
    (deleteHandler ⟨none, some "b"⟩ 1 "n" false (Except.ok ())).1.status = 404 ∧
    (deleteHandler ⟨none, some "b"⟩ 1 "n" true (Except.error "e")).1.status = 500 ∧
    (deleteHandler ⟨none, some "b"⟩ 1 "n" true (Except.ok ())).1.status = 200 ∧
    (metadataHandler ⟨none, none⟩ 1 "n"
      (Except.ok ⟨"n", 1, "ct", "t1", "t2", none⟩)).1.status = 500 ∧
    (metadataHandler ⟨none, some "b"⟩ 1 "n" (Except.error "e")).1.status = 500 ∧
    (metadataHandler ⟨none, some "b"⟩ 1 "n"
      (Except.ok ⟨"n", 1, "ct", "t1", "t2", none⟩)).1.status = 200 := by
  obtain ⟨g1, g2, g3, g4, g5, g6, g7, g8, g9, g10, g11, g12, g13, g14, g15, g16, g17,
    g18, g19, g20, g21, g22, g23, g24⟩ := status_codes_by_failure_kind
  exact ⟨g1 ⟨none, none⟩ 1 2 none,
    g2 ⟨none, none⟩ 1 ⟨none, none⟩ (Except.error "e") (by decide),
    g3 ⟨none, none⟩ 1 ⟨some "hi", none⟩ (Except.error "e") (by decide) (by decide),
    g4 ⟨some "k", none⟩ 1 ⟨some "hi", none⟩ ⟨"t", none, none, none⟩ (by decide) (by decide),
    g5 ⟨some "k", none⟩ 1 ⟨some "hi", none⟩ "e" (by decide) (by decide),
    g6 ⟨none, none⟩ 1 "tk" (Except.ok ()) (Except.ok "u"),
    g7 ⟨none, none⟩ 1 "tk" ⟨"a.pdf", "application/pdf", 9⟩ (Except.ok ()) (Except.ok "u")
      (by decide),
    g8 ⟨none, some "b"⟩ 1 "tk" "e" ⟨"a.pdf", "application/pdf", 9⟩ (Except.ok "u")
      (by decide),
    g9 ⟨none, some "b"⟩ 1 "tk" "e" ⟨"a.pdf", "application/pdf", 9⟩ (by decide),
    g10 ⟨none, some "b"⟩ 1 "tk" "u" ⟨"a.pdf", "application/pdf", 9⟩ (by decide),
    g11 ⟨none, none⟩ 1 "n" true (Except.ok "u") (by decide),
    g12 ⟨none, some "b"⟩ 1 "n" (Except.ok "u") (by decide),
    g13 ⟨none, some "b"⟩ 1 "n" "e" (by decide),
    g14 ⟨none, some "b"⟩ 1 "n" "u" (by decide),
    g15 ⟨none, none⟩ 1 (Except.ok []) (by decide),
    g16 ⟨none, some "b"⟩ 1 "e" (by decide),
    g17 ⟨none, some "b"⟩ 1 [] (by decide),
    g18 ⟨none, none⟩ 1 "n" true (Except.ok ()) (by decide),
    g19 ⟨none, some "b"⟩ 1 "n" (Except.ok ()) (by decide),
    g20 ⟨none, some "b"⟩ 1 "n" "e" (by decide),
    g21 ⟨none, some "b"⟩ 1 "n" (by decide),
    g22 ⟨none, none⟩ 1 "n" (Except.ok ⟨"n", 1, "ct", "t1", "t2", none⟩) (by decide),
    g23 ⟨none, some "b"⟩ 1 "n" "e" (by decide),
    g24 ⟨none, some "b"⟩ 1 "n" ⟨"n", 1, "ct", "t1", "t2", none⟩ (by decide)⟩

end ProxyAI
